import Mathlib

/-!
# Verification of the ecloud-sdk client library

A shallow embedding, in Lean 4, of the core logic of the `ecloudsdk` Go
package: the PDF sniffer (`isValidPDF`), the default retry policy
(`ShouldRetry`, `BackoffDuration`), the error decoder (`decodeError`), the
authentication state transition (`Login`/`Refresh`), the multipart record
assembly (`SyncMedicalRecords`), and the resilient request executor
(`performRequest`, in its gzip-capable variant, which is the one the
repository's specification describes).

Byte buffers are modelled as `List Nat` (byte values); Go `int` values are
modelled as `Int`.  All definitions are executable so that concrete runs can
be checked by `decide`/`rfl`.
-/

namespace EcloudSDK

/-- ASCII byte encoding of a string literal, used to write byte buffers
readably.  All literals used in the development are 7-bit ASCII, so
`Char.toNat` is exactly the Go byte value. -/
def asciiBytes (s : String) : List Nat := s.toList.map Char.toNat

/-! ## PDF sniffer (`isValidPDF`, src/ecloud.go)

The Go code checks, in order: non-empty, length at least 8, the regex
`^%PDF-1\.\d` against the first 8 bytes, the regex `%%EOF\s*$` against the
last 1024 bytes, and `bytes.Contains(data, []byte("startxref"))`.
-/

/-- Go regexp `\d`: an ASCII digit byte. -/
def isGoDigit (b : Nat) : Bool := 48 ≤ b && b ≤ 57

/-- Go regexp `\s`: one of TAB, LF, FF, CR, SPACE. -/
def isGoSpace (b : Nat) : Bool := b == 9 || b == 10 || b == 12 || b == 13 || b == 32

/-- ASCII lowercasing of a byte (`strings.ToLower` and Go's JSON field-name
folding, restricted to the ASCII data in play). -/
def toLowerByte (b : Nat) : Nat := if 65 ≤ b && b ≤ 90 then b + 32 else b

/-- `leadsWith pat l`: `pat` is a prefix of `l` (byte-wise). -/
def leadsWith : List Nat → List Nat → Bool
  | [], _ => true
  | _ :: _, [] => false
  | a :: as, b :: bs => a == b && leadsWith as bs

/-- `containsSub pat l`: `pat` occurs contiguously somewhere in `l`
(`bytes.Contains`). -/
def containsSub (pat : List Nat) : List Nat → Bool
  | [] => leadsWith pat []
  | b :: bs => leadsWith pat (b :: bs) || containsSub pat bs

/-- The anchored header regex `^%PDF-1\.\d` applied to `data[:8]`: the first
seven bytes are the literal `%PDF-1.` and the eighth is a digit. -/
def pdfHeaderMatch (data : List Nat) : Bool :=
  data.take 7 == asciiBytes "%PDF-1." &&
    (match data.drop 7 with
     | b :: _ => isGoDigit b
     | [] => false)

/-- The footer regex `%%EOF\s*$` searched in `l`: some occurrence of `%%EOF`
is followed only by whitespace up to the end of `l`.  Encoded equivalently:
after stripping the maximal whitespace suffix, `l` ends with `%%EOF`. -/
def pdfFooterMatch (l : List Nat) : Bool :=
  (l.reverse.dropWhile isGoSpace).take 5 == (asciiBytes "%%EOF").reverse

/-- `data[max(0, len(data)-1024):]` — the last 1024 bytes (or all of them). -/
def lastBytes (n : Nat) (l : List Nat) : List Nat := l.drop (l.length - n)

/-- Embedding of `isValidPDF` (src/ecloud.go lines 414-442). -/
def isValidPDF (data : List Nat) : Bool :=
  if data.length == 0 then false
  else if data.length < 8 then false
  else if !pdfHeaderMatch data then false
  else if !pdfFooterMatch (lastBytes 1024 data) then false
  else containsSub (asciiBytes "startxref") data

/-- The sniffer contract as the specification words it: at least 8 bytes whose
first 8 match `%PDF-1.` plus a digit, the last-1024-byte window ends with
`%%EOF` modulo trailing whitespace, and `startxref` occurs somewhere. -/
def specValidPDF (data : List Nat) : Bool :=
  decide (8 ≤ data.length) &&
  pdfHeaderMatch data &&
  pdfFooterMatch (lastBytes 1024 data) &&
  containsSub (asciiBytes "startxref") data

/-! ## Default retry policy (src/ecloud.go lines 73-97) -/

/-- `resp != nil && resp.StatusCode >= n`, with the response abstracted to its
status code (`none` models a nil response). -/
def respStatusAtLeast (resp : Option Int) (n : Int) : Bool :=
  match resp with
  | some s => decide (n ≤ s)
  | none => false

/-- `resp != nil && resp.StatusCode == n`. -/
def respStatusIs (resp : Option Int) (n : Int) : Bool :=
  match resp with
  | some s => s == n
  | none => false

/-- Embedding of `DefaultRetryPolicy.ShouldRetry`.  `errPresent` models
`err != nil`; `resp` is the status code of a non-nil response. -/
def shouldRetry (maxRetries attempt : Int) (errPresent : Bool) (resp : Option Int) : Bool :=
  if attempt ≥ maxRetries then false
  else if errPresent || respStatusAtLeast resp 500 then true
  else if respStatusIs resp 401 then true
  else false

/-- Two's-complement wrap-around of Go's 64-bit signed arithmetic: reduce
into `[-2^63, 2^63)`.  The literals are `2^63` and `2^64`. -/
def wrapInt64 (n : Int) : Int :=
  (n + 9223372036854775808) % 18446744073709551616 - 9223372036854775808

/-- Embedding of `DefaultRetryPolicy.BackoffDuration`, in nanoseconds:
`time.Duration(attempt*attempt) * time.Second` where `attempt` is a 64-bit
`int`, `time.Duration` is `int64` and `time.Second = 10^9`ns, so both the
squaring and the scaling step wrap on overflow. -/
def backoffDuration (attempt : Int) : Int :=
  wrapInt64 (wrapInt64 (attempt * attempt) * 1000000000)

/-! ## Patient records and multipart assembly (src/types.go, src/ecloud.go)

`PatientRecord` keeps exactly the fields `SyncMedicalRecords` and `Validate`
inspect; the `time.Time` visit timestamp is abstracted to its `IsZero` test,
which is all `Validate` looks at.  A Go nil byte slice is `none`; a present
slice is `some bytes`.
-/

structure PatientRecord where
  visitID : Nat
  subscriberID : Nat
  title : String
  visitTimestampIsZero : Bool
  medicalReport : Option (List Nat)
  labReport : Option (List Nat)
  deriving Repr, DecidableEq

/-- Embedding of `PatientRecord.Validate` (src/types.go lines 108-130); the
nil-pointer guard does not arise for a value.  `some msg` is the returned
error, `none` is success. -/
def PatientRecord.validate (pr : PatientRecord) : Option String :=
  if pr.visitID == 0 then some "patient record missing VisitID"
  else if pr.subscriberID == 0 then some "patient record missing SubscriberID"
  else if pr.title == "" then some "patient record missing Title"
  else if pr.visitTimestampIsZero then some "patient record missing valid VisitTimestamp"
  else if pr.medicalReport.isNone && pr.labReport.isNone then
    some "no medical report or laboratory report to upload"
  else none

/-- The bytes a Go `[]byte` holds: a nil slice reads as empty. -/
def bytesOf : Option (List Nat) → List Nat
  | some b => b
  | none => []

def medicalReportFieldName : String := "medical_report"
def medicalReportFileName : String := "medical_report.pdf"
def labReportFieldName : String := "lab_report"
def labReportFileName : String := "lab_report.pdf"

/-- One file part written into the multipart body by `CreateFormFile` +
`Write`. -/
structure FilePart where
  fieldName : String
  fileName : String
  content : List Nat
  deriving Repr, DecidableEq

/-- Observable outcome of `SyncMedicalRecords` up to and including the
decision to perform the HTTP request.  The error constructors record the
file parts already written when assembly aborted; `requestSent` means the
multipart body (file parts, then the five scalar fields) was completed and
`performRequest` was invoked. -/
inductive SyncOutcome where
  | failedValidation (msg : String)
  | invalidMedicalReportPDF (partsWritten : List FilePart)
  | invalidLabReportPDF (partsWritten : List FilePart)
  | requestSent (fileParts : List FilePart)
  deriving Repr, DecidableEq

/-- The lab-report branch of `SyncMedicalRecords` (src/ecloud.go lines
482-496), entered with the parts written so far. -/
def labReportStep (pr : PatientRecord) (parts : List FilePart) : SyncOutcome :=
  match pr.labReport with
  | some l =>
      if !isValidPDF l then SyncOutcome.invalidLabReportPDF parts
      else SyncOutcome.requestSent (parts ++ [⟨labReportFieldName, labReportFileName, l⟩])
  | none => SyncOutcome.requestSent parts

/-- Embedding of `SyncMedicalRecords` (src/ecloud.go lines 453-530) up to the
HTTP request.  Note the medical-report branch tests
`isValidPDF(patientRecord.LabReport)` — the lab report's bytes — exactly as
the source does. -/
def syncMedicalRecords (pr : PatientRecord) : SyncOutcome :=
  match pr.validate with
  | some msg => SyncOutcome.failedValidation msg
  | none =>
      match pr.medicalReport with
      | some m =>
          if !isValidPDF (bytesOf pr.labReport) then SyncOutcome.invalidMedicalReportPDF []
          else labReportStep pr [⟨medicalReportFieldName, medicalReportFileName, m⟩]
      | none => labReportStep pr []

/-! ## Authentication state (src/ecloud.go lines 151-209)

`Login` performs a request, checks the status, decodes the body, rejects an
empty token, and only then assigns `jwtToken`, `user`, `authenticated`
together; `Refresh` is exactly `Login`.  The network-and-decode phase is
abstracted into a `LoginOutcome`, so `login` is the induced transition on
the client's credential fields.
-/

structure AuthState where
  jwtToken : String
  userID : Nat
  authenticated : Bool
  deriving Repr, DecidableEq

/-- Result of the request/decode phase of `Login`:  a transport-level error
from `performRequest`, a non-200 status (routed to `decodeError`), a 200
whose body fails to decode, or a decoded `LoginResponse` (token, user). -/
inductive LoginOutcome where
  | transportError
  | badStatus (status : Int)
  | undecodableBody
  | decoded (token : String) (userID : Nat)
  deriving Repr, DecidableEq

/-- Embedding of `Login` as a state transition: returns the new credential
state and whether the call returned an error (`true` = failure). -/
def login (st : AuthState) (o : LoginOutcome) : AuthState × Bool :=
  match o with
  | LoginOutcome.transportError => (st, true)
  | LoginOutcome.badStatus _ => (st, true)
  | LoginOutcome.undecodableBody => (st, true)
  | LoginOutcome.decoded tok uid =>
      if tok == "" then (st, true)
      else ({ jwtToken := tok, userID := uid, authenticated := true }, false)

/-- The credential invariant: `authenticated` implies a non-empty token. -/
def authInvariant (st : AuthState) : Bool :=
  !st.authenticated || !(st.jwtToken == "")

/-- The credential state `NewEcloudClient` starts from (zero values). -/
def initialAuthState : AuthState := { jwtToken := "", userID := 0, authenticated := false }

/-! ## Error decoder (`decodeError`, src/unnamed/part_000 lines 121-137)

The decoder reads the whole body, tries
`json.Unmarshal(body, &JSONRespError{Error string})`, and falls back to an
empty-body or raw-text message.  `json.Unmarshal` is standard-library code
outside this repository, and all the decoder inspects about it is its error
result and the `Error` field it leaves behind; `decodeErrorWith` therefore
abstracts it as a parameter, and the decoder's universal properties are
proved for every unmarshal behaviour.  For concrete runs,
`unmarshalErrorField` models `Unmarshal` on a JSON fragment: a top-level
object (or `null`) whose members may be strings, numbers (strict JSON
grammar), booleans, `null`, or nested objects/arrays of the same; keys are
matched against the `error` tag ASCII-case-insensitively, later matching
members overwrite earlier ones, a matching member of non-string type (other
than the no-op `null`) is an unmarshal error, and string escapes
`\" \\ \/ \b \f \n \r \t` and `\uXXXX` for code points below U+0080 are
decoded.  Outside this fragment (e.g. `\uXXXX` at or above U+0080,
non-ASCII case folding, Go's replacement of invalid UTF-8) the model
reports an unmarshal failure where Go may succeed; no theorem below rests
on those inputs.
-/

/-- JSON insignificant whitespace: space, TAB, LF, CR. -/
def isJsonWs (b : Nat) : Bool := b == 32 || b == 9 || b == 10 || b == 13

def skipJsonWs : List Nat → List Nat
  | b :: bs => if isJsonWs b then skipJsonWs bs else b :: bs
  | [] => []

/-- Value of a hex digit byte, if it is one. -/
def hexVal (b : Nat) : Option Nat :=
  if 48 ≤ b && b ≤ 57 then some (b - 48)
  else if 97 ≤ b && b ≤ 102 then some (b - 87)
  else if 65 ≤ b && b ≤ 70 then some (b - 55)
  else none

/-- The byte a single-character JSON escape denotes
(`\" \\ \/ \b \f \n \r \t`). -/
def unescapeByte (c : Nat) : Option Nat :=
  if c == 34 then some 34
  else if c == 92 then some 92
  else if c == 47 then some 47
  else if c == 98 then some 8
  else if c == 102 then some 12
  else if c == 110 then some 10
  else if c == 114 then some 13
  else if c == 116 then some 9
  else none

/-- Parse the tail of a JSON string literal (after the opening quote, byte
34): returns the unescaped content and the rest of the input.  Raw control
characters are rejected, as Go does. -/
def parseJsonStringTail : List Nat → Option (List Nat × List Nat)
  | [] => none
  | 34 :: rest => some ([], rest)
  | 92 :: 117 :: h1 :: h2 :: h3 :: h4 :: rest =>
      match hexVal h1, hexVal h2, hexVal h3, hexVal h4 with
      | some a, some b, some c, some d =>
          let code := ((a * 16 + b) * 16 + c) * 16 + d
          if code < 128 then
            match parseJsonStringTail rest with
            | some (content, rem) => some (code :: content, rem)
            | none => none
          else none
      | _, _, _, _ => none
  | 92 :: c :: rest =>
      match unescapeByte c with
      | some b =>
          match parseJsonStringTail rest with
          | some (content, rem) => some (b :: content, rem)
          | none => none
      | none => none
  | b :: rest =>
      if b == 92 || b < 32 then none
      else
        match parseJsonStringTail rest with
        | some (content, rem) => some (b :: content, rem)
        | none => none

def skipDigits : List Nat → List Nat
  | b :: rest => if isGoDigit b then skipDigits rest else b :: rest
  | [] => []

/-- Consume the exponent part of a JSON number, if present. -/
def parseExp (l : List Nat) : Option (List Nat) :=
  match l with
  | b :: r =>
      if b == 101 || b == 69 then
        let r1 := match r with
          | c :: r2 => if c == 43 || c == 45 then r2 else c :: r2
          | [] => []
        match r1 with
        | d :: r3 => if isGoDigit d then some (skipDigits r3) else none
        | [] => none
      else some (b :: r)
  | [] => some []

/-- Consume the fraction-and-exponent tail of a JSON number. -/
def parseFrac (l : List Nat) : Option (List Nat) :=
  match l with
  | 46 :: r =>
      match r with
      | b :: r2 => if isGoDigit b then parseExp (skipDigits r2) else none
      | [] => none
  | _ => parseExp l

/-- Consume one number in the strict JSON grammar
`-?(0|[1-9][0-9]*)(\.[0-9]+)?([eE][+-]?[0-9]+)?`. -/
def parseNumber (l : List Nat) : Option (List Nat) :=
  let l1 := match l with
    | 45 :: r => r
    | _ => l
  match l1 with
  | 48 :: r => parseFrac r
  | b :: r => if 49 ≤ b && b ≤ 57 then parseFrac (skipDigits r) else none
  | [] => none

/-- A parsed JSON member value, as far as the decoder's struct cares: a
string (with unescaped content), the no-op `null`, or anything else. -/
inductive JVal where
  | str (content : List Nat)
  | nul
  | other
  deriving Repr, DecidableEq

/-- Parse modes: one JSON value; the member list of a nested object after
its `{`; the element list of an array after its `[`. -/
inductive PMode where
  | value
  | members
  | elems
  deriving Repr, DecidableEq

/-- One fuel-indexed parser for the three modes.  In `value` mode it parses
one JSON value (string, object, array, `true`, `false`, `null`, or number),
skipping the structure of non-strings; in `members`/`elems` mode it skips a
nested object's members or an array's elements up to and past the closing
delimiter, yielding `JVal.other`. -/
def parseStep : Nat → PMode → List Nat → Option (JVal × List Nat)
  | 0, _, _ => none
  | fuel + 1, PMode.value, l =>
      match skipJsonWs l with
      | 34 :: rest =>
          match parseJsonStringTail rest with
          | some (content, rem) => some (JVal.str content, rem)
          | none => none
      | 123 :: rest =>
          match skipJsonWs rest with
          | 125 :: rest2 => some (JVal.other, rest2)
          | _ => parseStep fuel PMode.members rest
      | 91 :: rest =>
          match skipJsonWs rest with
          | 93 :: rest2 => some (JVal.other, rest2)
          | _ => parseStep fuel PMode.elems rest
      | 116 :: 114 :: 117 :: 101 :: rest => some (JVal.other, rest)
      | 102 :: 97 :: 108 :: 115 :: 101 :: rest => some (JVal.other, rest)
      | 110 :: 117 :: 108 :: 108 :: rest => some (JVal.nul, rest)
      | l1 =>
          match parseNumber l1 with
          | some rest => some (JVal.other, rest)
          | none => none
  | fuel + 1, PMode.members, l =>
      match skipJsonWs l with
      | 34 :: rest =>
          match parseJsonStringTail rest with
          | some (_, rest1) =>
              match skipJsonWs rest1 with
              | 58 :: rest2 =>
                  match parseStep fuel PMode.value rest2 with
                  | some (_, rest3) =>
                      match skipJsonWs rest3 with
                      | 44 :: rest4 => parseStep fuel PMode.members rest4
                      | 125 :: rest5 => some (JVal.other, rest5)
                      | _ => none
                  | none => none
              | _ => none
          | none => none
      | _ => none
  | fuel + 1, PMode.elems, l =>
      match parseStep fuel PMode.value l with
      | some (_, rest) =>
          match skipJsonWs rest with
          | 44 :: rest2 => parseStep fuel PMode.elems rest2
          | 93 :: rest3 => some (JVal.other, rest3)
          | _ => none
      | none => none

/-- Parse one JSON value. -/
def parseValue (fuel : Nat) (l : List Nat) : Option (JVal × List Nat) :=
  parseStep fuel PMode.value l

/-- Whether a member key selects the struct field tagged `error`: exact or
ASCII-case-insensitive match, as Go's field matching does. -/
def keyMatchesError (key : List Nat) : Bool :=
  key.map toLowerByte == asciiBytes "error"

/-- Apply one member to the accumulated `Error` field, Go-style: a later
matching member overwrites an earlier one, `null` into a string field is a
no-op, any other non-string value for a matching key is an unmarshal
error; non-matching members are ignored. -/
def updateErrorAcc (key : List Nat) (v : JVal) (acc : Option (List Nat)) :
    Option (Option (List Nat)) :=
  if keyMatchesError key then
    match v with
    | JVal.str c => some (some c)
    | JVal.nul => some acc
    | JVal.other => none
  else some acc

/-- Walk the top-level object's members (after its opening brace),
accumulating the `error` field last-wins; bytes 58, 44, 125 are `:`, `,`,
and the closing brace. -/
def parseMembers : Nat → List Nat → Option (List Nat) → Option (Option (List Nat))
  | 0, _, _ => none
  | fuel + 1, l, acc =>
      match skipJsonWs l with
      | 34 :: rest =>
          match parseJsonStringTail rest with
          | some (key, rest1) =>
              match skipJsonWs rest1 with
              | 58 :: rest2 =>
                  match parseValue fuel rest2 with
                  | some (v, rest3) =>
                      match updateErrorAcc key v acc with
                      | some acc1 =>
                          match skipJsonWs rest3 with
                          | 44 :: rest4 => parseMembers fuel rest4 acc1
                          | 125 :: rest5 =>
                              if (skipJsonWs rest5).isEmpty then some acc1 else none
                          | _ => none
                      | none => none
                  | none => none
              | _ => none
          | none => none
      | _ => none

/-- Model of `json.Unmarshal(body, &JSONRespError)` on the documented
fragment: `some field` is success with the resulting `Error` field bytes
(`none` inside when the field was never assigned, i.e. left `""`); the
outer `none` is an unmarshal error. -/
def unmarshalErrorField (body : List Nat) : Option (Option (List Nat)) :=
  match skipJsonWs body with
  | 123 :: rest =>
      match skipJsonWs rest with
      | 125 :: rest2 => if (skipJsonWs rest2).isEmpty then some none else none
      | _ => parseMembers (2 * body.length + 2) rest none
  | 110 :: 117 :: 108 :: 108 :: rest =>
      if (skipJsonWs rest).isEmpty then some none else none
  | _ => none

def stringOfBytes (l : List Nat) : String := String.mk (l.map Char.ofNat)

/-- The unmarshal outcome as `decodeError` consumes it: `some v` when
`json.Unmarshal` succeeds leaving `Error = v`, `none` when it fails. -/
def jsonErrorField (body : List Nat) : Option String :=
  match unmarshalErrorField body with
  | some (some v) => some (stringOfBytes v)
  | some none => some ""
  | none => none

/-- Result of `io.ReadAll(resp)` feeding the decoder. -/
inductive ReadResult where
  | failure (msg : String)
  | ok (body : List Nat)
  deriving Repr, DecidableEq

/-- The fallback tail of `decodeError`: empty-body condition, else the raw
body text. -/
def decodeErrorFallback (body : List Nat) : String :=
  if body.length == 0 then "empty response body"
  else "remote error: " ++ stringOfBytes body

/-- Embedding of `decodeError` (src/unnamed/part_000 lines 121-137) with the
unmarshal behaviour `u` as a parameter: its branching and message
formatting, returning the error's message string. -/
def decodeErrorWith (u : List Nat → Option String) (r : ReadResult) : String :=
  match r with
  | ReadResult.failure e => "failed to read response body: " ++ e
  | ReadResult.ok body =>
      match u body with
      | some v => if v == "" then decodeErrorFallback body else "remote error: " ++ v
      | none => decodeErrorFallback body

/-- `decodeError` with the unmarshal fragment model plugged in, for concrete
runs. -/
def decodeError (r : ReadResult) : String := decodeErrorWith jsonErrorField r

/-! ## Request executor (`performRequest`, src/unnamed/part_000 lines 16-114)

The gzip-capable executor, with the default retry policy installed (the
client default).  The caller's body is a single-pass reader: Go's
`http.NewRequestWithContext` does not copy it, and a completed exchange
consumes it, so whatever bytes remain when an attempt's `Do` runs are the
bytes that attempt sends.  A transport error is modelled as occurring after
the request body was consumed (one possible behaviour of the real
transport; for completed exchanges — responses, including 401s — the
consumption is forced).  `Refresh` is abstracted to whether it succeeds; a
successful refresh re-runs `Login` on a fresh body of its own and does not
touch this call's reader.
-/

/-- A single-pass byte stream (Go `io.Reader` over a buffer). -/
structure ByteReader where
  remaining : List Nat
  deriving Repr, DecidableEq

/-- Drain an optional reader: the bytes an attempt sends, and the reader
state afterwards (`none` body sends no bytes). -/
def consume : Option ByteReader → Option (List Nat) × Option ByteReader
  | none => (none, none)
  | some r => (some r.remaining, some ⟨[]⟩)

/-- gzip framing modelled abstractly: the claims below depend only on the
compressed buffer being a fixed byte sequence produced once before the
retry loop, never on the DEFLATE bit stream, so compression is modelled as
the two gzip magic bytes followed by the payload. -/
def gzipEncode (l : List Nat) : List Nat := 31 :: 139 :: l

/-- Go map read `headers[k]`: missing key yields `""`. -/
def headerLookup (hs : List (String × String)) (k : String) : String :=
  match hs.lookup k with
  | some v => v
  | none => ""

/-- `strings.HasPrefix(strings.ToLower(headers["Content-Type"]),
"multipart/form-data")`, computed byte-wise. -/
def isMultipartHeaders (headers : List (String × String)) : Bool :=
  leadsWith (asciiBytes "multipart/form-data")
    ((asciiBytes (headerLookup headers "Content-Type")).map toLowerByte)

/-- `compressBody`: `true` unless the variadic `gzipCompress` is non-empty
and the request is not multipart, in which case its first element. -/
def compressFlag (gzipCompress : List Bool) (isMultipart : Bool) : Bool :=
  match gzipCompress with
  | [] => true
  | g :: _ => if isMultipart then true else g

/-- The pre-loop body setup: the reader handed to the retry loop and whether
the body bytes were actually gzip-compressed
(`compressBody && body != nil && !isMultipart`). -/
def requestBodySetup (body : Option (List Nat)) (compressBody isMultipart : Bool) :
    Option ByteReader × Bool :=
  match body with
  | some b =>
      if compressBody && !isMultipart then (some ⟨gzipEncode b⟩, true)
      else (some ⟨b⟩, false)
  | none => (none, false)

/-- `req.Header.Set` (header keys used here are already in canonical MIME
form, so plain string keys model `http.Header` faithfully). -/
def setHeader (hs : List (String × String)) (k v : String) : List (String × String) :=
  (k, v) :: hs.filter (fun p => !(p.1 == k))

def getHeader (hs : List (String × String)) (k : String) : String := headerLookup hs k

/-- The header set every attempt's request carries (src/unnamed/part_000
lines 56-79): bearer token if non-empty, the caller's headers, defaulted
`Content-Type`/`Accept`, `Content-Encoding: gzip` whenever `compressBody`
is set, and `Accept-Encoding: gzip`. -/
def buildRequestHeaders (token : String) (custom : List (String × String))
    (compressBody : Bool) : List (String × String) :=
  let hs : List (String × String) := []
  let hs := if token == "" then hs else setHeader hs "Authorization" ("Bearer " ++ token)
  let hs := custom.foldl (fun acc p => setHeader acc p.1 p.2) hs
  let hs := if getHeader hs "Content-Type" == "" then
      setHeader hs "Content-Type" "application/json" else hs
  let hs := if getHeader hs "Accept" == "" then
      setHeader hs "Accept" "application/json" else hs
  let hs := if compressBody then setHeader hs "Content-Encoding" "gzip" else hs
  setHeader hs "Accept-Encoding" "gzip"

/-- A completed HTTP exchange, tagged so distinct responses with equal status
stay distinguishable. -/
structure Resp where
  status : Int
  id : Nat
  deriving Repr, DecidableEq

/-- What `httpClient.Do` produces on a given attempt: a transport error
(`err != nil`, nil response) or a completed response. -/
inductive Outcome where
  | transportError
  | response (r : Resp)
  deriving Repr, DecidableEq

/-- What `performRequest` returns: `respOk r` is `return r, nil`; `respErr`
is a nil response with the last transport error (or nil). -/
inductive ReqResult where
  | respOk (r : Resp)
  | respErr
  deriving Repr, DecidableEq

/-- One run of the executor: its return value, the request-body bytes each
`Do` call consumed (one entry per attempt actually executed), and whether a
failed token refresh was reported through the logger's `Error` level. -/
structure RunTrace where
  result : ReqResult
  sentBodies : List (Option (List Nat))
  refreshErrorLogged : Bool
  deriving Repr, DecidableEq

/-- The retry loop of `performRequest` (src/unnamed/part_000 lines 50-113).
Arguments after the environment: remaining loop iterations
(`maxRetries + 1 - attempt`), the attempt index, the body reader, the
`lastErr`-set flag, `lastResp`, and the bodies sent so far. -/
def performLoop (maxRetries : Int) (auth refreshOk : Bool) (outcomes : Nat → Outcome) :
    Nat → Nat → Option ByteReader → Bool → Option Resp →
    List (Option (List Nat)) → RunTrace
  | 0, _, _, _, lastResp, sent =>
      match lastResp with
      | some r => ⟨ReqResult.respOk r, sent, false⟩
      | none => ⟨ReqResult.respErr, sent, false⟩
  | fuel + 1, attempt, reader, lastErrSet, lastResp, sent =>
      let step := consume reader
      let sent' := sent ++ [step.1]
      match outcomes attempt with
      | Outcome.transportError =>
          if shouldRetry maxRetries attempt true none then
            performLoop maxRetries auth refreshOk outcomes fuel (attempt + 1)
              step.2 true none sent'
          else ⟨ReqResult.respErr, sent', false⟩
      | Outcome.response r =>
          if r.status == 401 && auth then
            if !refreshOk then ⟨ReqResult.respOk r, sent', true⟩
            else if shouldRetry maxRetries attempt false (some r.status) then
              performLoop maxRetries auth refreshOk outcomes fuel (attempt + 1)
                step.2 lastErrSet lastResp sent'
            else ⟨ReqResult.respOk r, sent', false⟩
          else ⟨ReqResult.respOk r, sent', false⟩

/-- Embedding of `performRequest`: multipart detection, the compress flag,
the one-time body setup, then the retry loop over attempts
`0 ..= maxRetries`. -/
def performRequest (maxRetries : Int) (auth refreshOk : Bool) (outcomes : Nat → Outcome)
    (body : Option (List Nat)) (headers : List (String × String))
    (gzipCompress : List Bool) : RunTrace :=
  let isMultipart := isMultipartHeaders headers
  let compressBody := compressFlag gzipCompress isMultipart
  let setup := requestBodySetup body compressBody isMultipart
  performLoop maxRetries auth refreshOk outcomes (Int.toNat (maxRetries + 1)) 0
    setup.1 false none []

/-! ### Concrete fixtures used by witnesses and counterexamples -/

/-- A minimal buffer passing all three sniffer checks. -/
def samplePDF : List Nat := asciiBytes "%PDF-1.7 body startxref 42 %%EOF"

/-- A Validate-passing record carrying only a (valid) medical report. -/
def sampleRecordMedOnly : PatientRecord :=
  { visitID := 999, subscriberID := 101, title := "Annual Checkup",
    visitTimestampIsZero := false, medicalReport := some samplePDF, labReport := none }

/-- A Validate-passing record whose medical report is garbage but whose lab
report is a valid PDF. -/
def sampleRecordBadMed : PatientRecord :=
  { visitID := 999, subscriberID := 101, title := "Annual Checkup",
    visitTimestampIsZero := false, medicalReport := some (asciiBytes "this is not a pdf"),
    labReport := some samplePDF }

/-- Caller headers of a multipart upload (`SyncMedicalRecords`). -/
def multipartHeadersSample : List (String × String) :=
  [("Content-Type", "multipart/form-data; boundary=abc123")]

/-- Environment in which attempt 0 draws a 401 and attempt 1 draws a 200. -/
def retryOutcomes : Nat → Outcome := fun a =>
  if a == 0 then Outcome.response ⟨401, 0⟩ else Outcome.response ⟨200, 1⟩

end EcloudSDK

namespace EcloudSDK

/-- C6: `isValidPDF` agrees with the spec's characterization everywhere, and
behaves as the spec's examples require: false on empty input, on input under
8 bytes, and on input with correct header and footer but no `startxref`;
true on a buffer with header, `startxref` and trailing `%%EOF`. -/
theorem C6_isValidPDF_characterization :
    (∀ data : List Nat, isValidPDF data = specValidPDF data) ∧
    isValidPDF [] = false ∧
    isValidPDF (asciiBytes "%PDF-1.") = false ∧
    isValidPDF (asciiBytes "%PDF-1.4 no xref table here %%EOF") = false ∧
    isValidPDF (asciiBytes "%PDF-1.7 body startxref 42 %%EOF") = true := by
  refine ⟨?_, by decide, by decide, by decide, by decide⟩
  intro data
  unfold isValidPDF specValidPDF
  by_cases h8 : 8 ≤ data.length
  · have h0 : ¬ (data.length == 0) = true := by
      simp only [beq_iff_eq]
      omega
    have hlt : ¬ data.length < 8 := by omega
    rw [if_neg h0, if_neg hlt]
    cases hh : pdfHeaderMatch data <;>
      cases hf : pdfFooterMatch (lastBytes 1024 data) <;>
        simp [h8, hh, hf]
  · have hR : decide (8 ≤ data.length) = false := by
      simp only [decide_eq_false_iff_not]
      omega
    rw [hR]
    simp only [Bool.false_and]
    by_cases h0 : data.length = 0
    · simp [h0]
    · have h0' : ¬ (data.length == 0) = true := by
        simp only [beq_iff_eq]
        omega
      rw [if_neg h0', if_pos (by omega : data.length < 8)]

/-- C4: the default policy retries exactly when the attempt index is below
`maxRetries` and either a transport error occurred or the response status is
at least 500 or exactly 401; every other outcome is non-retryable. -/
theorem C4_shouldRetry_iff :
    ∀ (mr a : Int) (e : Bool) (r : Option Int),
      shouldRetry mr a e r = true ↔
        (a < mr ∧ (e = true ∨ ∃ s, r = some s ∧ (500 ≤ s ∨ s = 401))) := by
  intro mr a e r
  unfold shouldRetry respStatusAtLeast respStatusIs
  cases r with
  | none => cases e <;> split <;> simp_all
  | some s => cases e <;> split <;> simp_all

/-- In the range where the squared-seconds product fits in `int64` —
`0 ≤ a ≤ 96038`, since `96038² · 10⁹ < 2^63 ≤ 96039² · 10⁹` — both wraps
are the identity and the backoff is exactly `a · a` seconds. -/
theorem backoffDuration_eq_of_le_96038 (a : Int) (h0 : 0 ≤ a) (h1 : a ≤ 96038) :
    backoffDuration a = a * a * 1000000000 := by
  have hnn : 0 ≤ a * a := mul_nonneg h0 h0
  have hub : a * a ≤ 96038 * 96038 := mul_le_mul h1 h1 h0 (by norm_num)
  norm_num at hub
  have key : ∀ m : Int, 0 ≤ m → m ≤ 9223297444 →
      wrapInt64 (wrapInt64 m * 1000000000) = m * 1000000000 := by
    intro m hm hm2
    have w1 : wrapInt64 m = m := by
      unfold wrapInt64
      omega
    rw [w1]
    unfold wrapInt64
    omega
  exact key (a * a) hnn hub

/-- C7 counterexample: the claim's universally quantified clauses fail on the
wrapping 64-bit arithmetic — at attempt 96039 the product `a²·10⁹`
overflows `int64` and wraps negative, so it is not `a·a` seconds and the
function is not monotone from 96038 to 96039. -/
theorem C7_backoff_overflows_at_96039 :
    backoffDuration 96039 ≠ 96039 * 96039 * 1000000000 ∧
    (0 : Int) ≤ 96038 ∧ (96038 : Int) ≤ 96039 ∧
    ¬ backoffDuration 96038 ≤ backoffDuration 96039 :=
  ⟨by decide, by decide, by decide, by decide⟩

/-- C7 (amended): the default backoff is deterministic and computes
attempt²·10⁹ ns in wrapping 64-bit arithmetic: on every attempt index up to
96038 — the largest whose squared-seconds product fits in `int64`, far
beyond any attempt the retry loop can reach — it equals `a · a` seconds,
takes the spec's sample values at 0, 1, 2, and is monotonically
non-decreasing; at 96039 the product wraps negative. -/
theorem C7_backoff_quadratic_monotone :
    (∀ a : Int, 0 ≤ a → a ≤ 96038 → backoffDuration a = a * a * 1000000000) ∧
    backoffDuration 0 = 0 ∧
    backoffDuration 1 = 1000000000 ∧
    backoffDuration 2 = 4000000000 ∧
    (∀ a b : Int, 0 ≤ a → a ≤ b → b ≤ 96038 → backoffDuration a ≤ backoffDuration b) ∧
    backoffDuration 96039 < 0 := by
  refine ⟨backoffDuration_eq_of_le_96038, by decide, by decide, by decide,
    fun a b ha hab hb => ?_, by decide⟩
  rw [backoffDuration_eq_of_le_96038 a ha (le_trans hab hb),
    backoffDuration_eq_of_le_96038 b (le_trans ha hab) hb]
  have h : a * a ≤ b * b := mul_le_mul hab hab ha (le_trans ha hab)
  exact mul_le_mul_of_nonneg_right h (by norm_num)

/-- C7 witness: the in-range equality applied at attempt 2 and the
monotonicity clause applied at attempts 1 ≤ 2. -/
theorem C7_backoff_quadratic_monotone_witness :
    ((0 : Int) ≤ 2 ∧ (2 : Int) ≤ 96038 ∧ backoffDuration 2 = 2 * 2 * 1000000000) ∧
    ((0 : Int) ≤ 1 ∧ (1 : Int) ≤ 2 ∧ (2 : Int) ≤ 96038 ∧
      backoffDuration 1 ≤ backoffDuration 2) :=
  ⟨⟨by decide, by decide, C7_backoff_quadratic_monotone.1 2 (by decide) (by decide)⟩,
   ⟨by decide, by decide, by decide,
     C7_backoff_quadratic_monotone.2.2.2.2.1 1 2 (by decide) (by decide) (by decide)⟩⟩

/-- C1: the claim says each attachment is sniffed on its own bytes, but the
medical-report branch of `SyncMedicalRecords` sniffs the lab report's
bytes: a Validate-passing record whose medical report is a valid PDF and
whose lab report is absent is rejected with `ErrInvalidMedicalReportPDF`
(no parts written, no request), while a record whose medical report fails
the sniffer but whose lab report passes is uploaded without any error. -/
theorem C1_medical_branch_sniffs_lab_bytes :
    isValidPDF samplePDF = true ∧
    syncMedicalRecords sampleRecordMedOnly = SyncOutcome.invalidMedicalReportPDF [] ∧
    isValidPDF (asciiBytes "this is not a pdf") = false ∧
    syncMedicalRecords sampleRecordBadMed =
      SyncOutcome.requestSent
        [⟨medicalReportFieldName, medicalReportFileName, asciiBytes "this is not a pdf"⟩,
         ⟨labReportFieldName, labReportFileName, samplePDF⟩] :=
  ⟨by decide, by decide, by decide, by decide⟩

/-- C10: a Validate-passing record with a medical report and no lab report is
always rejected with `ErrInvalidMedicalReportPDF` before any part is
written and before any HTTP request, regardless of the medical report's
bytes, because the medical-report branch sniffs the (empty) lab-report
bytes. -/
theorem C10_medical_only_record_never_uploaded :
    ∀ (pr : PatientRecord) (m : List Nat),
      pr.validate = none → pr.medicalReport = some m → pr.labReport = none →
      syncMedicalRecords pr = SyncOutcome.invalidMedicalReportPDF [] := by
  intro pr m hv hm hl
  have h : isValidPDF (bytesOf pr.labReport) = false := by
    rw [hl]
    decide
  simp [syncMedicalRecords, hv, hm, h]

/-- C10 witness: the record carrying only a valid medical report. -/
theorem C10_medical_only_record_never_uploaded_witness :
    sampleRecordMedOnly.validate = none ∧
    sampleRecordMedOnly.medicalReport = some samplePDF ∧
    sampleRecordMedOnly.labReport = none ∧
    syncMedicalRecords sampleRecordMedOnly = SyncOutcome.invalidMedicalReportPDF [] :=
  ⟨by decide, rfl, rfl,
    C10_medical_only_record_never_uploaded sampleRecordMedOnly samplePDF (by decide) rfl rfl⟩

/-- C9: the credential state satisfies `authenticated → token ≠ ""` from the
initial state and under every `Login`/`Refresh` transition, and the
transition is atomic: any failing outcome leaves the state exactly as it
was, and a success replaces token, user, and flag together with the
non-empty token. -/
theorem C9_login_atomic_and_invariant :
    authInvariant initialAuthState = true ∧
    (∀ (st : AuthState) (o : LoginOutcome),
        authInvariant st = true → authInvariant (login st o).1 = true) ∧
    (∀ (st : AuthState) (o : LoginOutcome),
        (login st o).2 = true → (login st o).1 = st) ∧
    (∀ (st : AuthState) (tok : String) (uid : Nat),
        tok ≠ "" →
        login st (LoginOutcome.decoded tok uid)
          = ({ jwtToken := tok, userID := uid, authenticated := true }, false)) := by
  refine ⟨by decide, ?_, ?_, ?_⟩
  · intro st o hst
    cases o with
    | transportError => simpa [login] using hst
    | badStatus s => simpa [login] using hst
    | undecodableBody => simpa [login] using hst
    | decoded tok uid =>
        by_cases h : (tok == "") = true
        · simpa [login, h] using hst
        · simp [login, h, authInvariant]
  · intro st o
    cases o with
    | transportError => intro _; rfl
    | badStatus s => intro _; rfl
    | undecodableBody => intro _; rfl
    | decoded tok uid =>
        by_cases h : (tok == "") = true
        · simp [login, h]
        · simp [login, h]
  · intro st tok uid h
    simp [login, h]

/-- C9 witness: the invariant holds initially; a 401 login failure leaves the
state untouched; a decoded non-empty token replaces the whole credential. -/
theorem C9_login_atomic_and_invariant_witness :
    authInvariant initialAuthState = true ∧
    authInvariant (login initialAuthState (LoginOutcome.decoded "t1" 5)).1 = true ∧
    (login initialAuthState (LoginOutcome.badStatus 401)).1 = initialAuthState ∧
    ("t1" : String) ≠ "" ∧
    login initialAuthState (LoginOutcome.decoded "t1" 5)
      = ({ jwtToken := "t1", userID := 5, authenticated := true }, false) :=
  ⟨C9_login_atomic_and_invariant.1,
    C9_login_atomic_and_invariant.2.1 initialAuthState (LoginOutcome.decoded "t1" 5)
      (by decide),
    C9_login_atomic_and_invariant.2.2.1 initialAuthState (LoginOutcome.badStatus 401)
      (by decide),
    by decide,
    C9_login_atomic_and_invariant.2.2.2 initialAuthState "t1" 5 (by decide)⟩

/-- C5: in any loop state with attempts remaining, if the attempt's exchange
completes with a 401 while the client is authenticated and the refresh
fails, the executor returns that very response with a nil error at once —
no further `Do` call — and the refresh failure is reported only through
the logger; a whole-run instance is included. -/
theorem C5_failed_refresh_returns_401_immediately :
    (∀ (mr : Int) (outcomes : Nat → Outcome) (fuel attempt : Nat)
        (reader : Option ByteReader) (lastErrSet : Bool) (lastResp : Option Resp)
        (sent : List (Option (List Nat))) (r : Resp),
        outcomes attempt = Outcome.response r → r.status = 401 →
        performLoop mr true false outcomes (fuel + 1) attempt reader lastErrSet lastResp sent
          = ⟨ReqResult.respOk r, sent ++ [(consume reader).1], true⟩) ∧
    performRequest 3 true false (fun _ => Outcome.response ⟨401, 7⟩) (some [9]) [] []
      = ⟨ReqResult.respOk ⟨401, 7⟩, [some (gzipEncode [9])], true⟩ := by
  refine ⟨?_, by decide⟩
  intro mr outcomes fuel attempt reader lastErrSet lastResp sent r hout hst
  unfold performLoop
  rw [hout]
  simp [hst]

/-- C5 witness: the loop clause applied at attempt 0 of a run whose every
exchange is a 401, with a failing refresh. -/
theorem C5_failed_refresh_returns_401_immediately_witness :
    (fun _ : Nat => Outcome.response ⟨401, 7⟩) 0 = Outcome.response ⟨401, 7⟩ ∧
    (⟨401, 7⟩ : Resp).status = 401 ∧
    performLoop 3 true false (fun _ => Outcome.response ⟨401, 7⟩) 4 0 (some ⟨[9]⟩) false none []
      = ⟨ReqResult.respOk ⟨401, 7⟩, [some [9]], true⟩ :=
  ⟨rfl, rfl,
    C5_failed_refresh_returns_401_immediately.1 3 (fun _ => Outcome.response ⟨401, 7⟩) 3 0
      (some ⟨[9]⟩) false none [] ⟨401, 7⟩ rfl rfl⟩

/-- C2: a run in which an authenticated client sends a non-empty JSON body,
draws a 401, refreshes successfully and retries: the body is compressed
once before the loop, the first attempt transmits the compressed buffer,
but the retried attempt transmits an empty body — not the same bytes, the
buffer having been drained by the first exchange. -/
theorem C2_retry_transmits_drained_body :
    (performRequest 3 true true retryOutcomes (some [1, 2, 3]) [] []).result
        = ReqResult.respOk ⟨200, 1⟩ ∧
    (performRequest 3 true true retryOutcomes (some [1, 2, 3]) [] []).sentBodies
        = [some (gzipEncode [1, 2, 3]), some []] ∧
    some (gzipEncode [1, 2, 3]) ≠ some ([] : List Nat) :=
  ⟨by decide, by decide, by decide⟩

/-- C3: multipart bodies are indeed never gzip-compressed, for every compress
flag and body; but on a multipart request with the flag defaulted the
executor still stamps `Content-Encoding: gzip` on the outgoing headers even
though the body was not compressed, refuting the claimed iff. -/
theorem C3_multipart_uncompressed_but_content_encoding_set :
    (∀ (gz : List Bool) (body : Option (List Nat)) (hs : List (String × String)),
        isMultipartHeaders hs = true →
        (requestBodySetup body (compressFlag gz (isMultipartHeaders hs))
            (isMultipartHeaders hs)).2 = false) ∧
    isMultipartHeaders multipartHeadersSample = true ∧
    (requestBodySetup (some (asciiBytes "part-bytes")) (compressFlag [] true) true).2
        = false ∧
    getHeader (buildRequestHeaders "tok" multipartHeadersSample (compressFlag [] true))
      "Content-Encoding" = "gzip" := by
  refine ⟨?_, by decide, by decide, by decide⟩
  intro gz body hs hm
  rw [hm]
  cases body <;> simp [requestBodySetup]

/-- C3 witness: the never-compressed clause applied to the multipart upload
headers with the default compress flag. -/
theorem C3_multipart_uncompressed_witness :
    isMultipartHeaders multipartHeadersSample = true ∧
    (requestBodySetup (some (asciiBytes "xyz"))
        (compressFlag [] (isMultipartHeaders multipartHeadersSample))
        (isMultipartHeaders multipartHeadersSample)).2 = false :=
  ⟨by decide,
    C3_multipart_uncompressed_but_content_encoding_set.1 [] (some (asciiBytes "xyz"))
      multipartHeadersSample (by decide)⟩

/-- C8 counterexample: decoding `{"error":"invalid credentials"}` yields the
message `remote error: invalid credentials`, which is not the bare field
value the claim asserts. -/
theorem C8_message_carries_prefix_counterexample :
    decodeError (ReadResult.ok (asciiBytes "\x7b\"error\":\"invalid credentials\"\x7d"))
        = "remote error: invalid credentials" ∧
    ("remote error: invalid credentials" : String) ≠ "invalid credentials" :=
  ⟨by decide, by decide⟩

/-- C8 amended: for every unmarshal behaviour and every body, the decoder's
message carries the `remote error: ` prefix around a non-empty decoded
`error` field value; whenever unmarshalling fails or leaves the field
empty, a non-empty body is reported as `remote error: ` around its raw text
and an empty body distinctly as `empty response body`; a read failure is
reported distinctly as `failed to read response body: <err>`, never as a
remote error message; with the spec's concrete examples run through the
unmarshal fragment model. -/
theorem C8_decodeError_amended :
    (∀ (u : List Nat → Option String) (body : List Nat) (v : String),
        u body = some v → v ≠ "" →
        decodeErrorWith u (ReadResult.ok body) = "remote error: " ++ v) ∧
    (∀ (u : List Nat → Option String) (body : List Nat),
        (u body = none ∨ u body = some "") → body ≠ [] →
        decodeErrorWith u (ReadResult.ok body) = "remote error: " ++ stringOfBytes body) ∧
    (∀ u : List Nat → Option String,
        (u [] = none ∨ u [] = some "") →
        decodeErrorWith u (ReadResult.ok []) = "empty response body") ∧
    (∀ (u : List Nat → Option String) (e : String),
        decodeErrorWith u (ReadResult.failure e) = "failed to read response body: " ++ e) ∧
    decodeError (ReadResult.ok (asciiBytes "\x7b\"error\":\"invalid credentials\"\x7d"))
        = "remote error: invalid credentials" ∧
    decodeError (ReadResult.ok []) = "empty response body" ∧
    decodeError (ReadResult.ok (asciiBytes "plain text failure"))
        = "remote error: plain text failure" ∧
    decodeError (ReadResult.failure "boom") ≠ decodeError (ReadResult.ok (asciiBytes "boom")) := by
  refine ⟨?_, ?_, ?_, fun u e => rfl, by decide, by decide, by decide, by decide⟩
  · intro u body v hu hv
    have hvb : (v == "") = false := by
      simp only [beq_eq_false_iff_ne, ne_eq]
      exact hv
    simp [decodeErrorWith, hu, hvb]
  · intro u body hu hB
    have hlen : (body.length == 0) = false := by
      simp only [beq_eq_false_iff_ne, ne_eq, List.length_eq_zero]
      exact hB
    rcases hu with h | h <;> simp [decodeErrorWith, decodeErrorFallback, h, hlen]
  · intro u hu
    rcases hu with h | h <;> simp [decodeErrorWith, decodeErrorFallback, h]

/-- C8 witness: the universal clauses applied at the fragment unmarshal model
on the spec's JSON and plain-text bodies. -/
theorem C8_decodeError_amended_witness :
    (jsonErrorField (asciiBytes "\x7b\"error\":\"invalid credentials\"\x7d")
        = some "invalid credentials" ∧
      ("invalid credentials" : String) ≠ "" ∧
      decodeErrorWith jsonErrorField
          (ReadResult.ok (asciiBytes "\x7b\"error\":\"invalid credentials\"\x7d"))
        = "remote error: " ++ "invalid credentials") ∧
    (jsonErrorField (asciiBytes "plain text failure") = none ∧
      asciiBytes "plain text failure" ≠ [] ∧
      decodeErrorWith jsonErrorField (ReadResult.ok (asciiBytes "plain text failure"))
        = "remote error: " ++ stringOfBytes (asciiBytes "plain text failure")) :=
  ⟨⟨by decide, by decide,
     C8_decodeError_amended.1 jsonErrorField
       (asciiBytes "\x7b\"error\":\"invalid credentials\"\x7d") "invalid credentials"
       (by decide) (by decide)⟩,
   ⟨by decide, by decide,
     C8_decodeError_amended.2.1 jsonErrorField (asciiBytes "plain text failure")
       (Or.inl (by decide)) (by decide)⟩⟩

end EcloudSDK
